import Mathlib

/-!
Shallow embedding of the Lead Conversation & Call-Queue Orchestration Engine
(an AI admission-assistant backend).  Pure computations are translated
directly from the JavaScript source; each external effect (ChromaDB query,
LLM invocation, MongoDB write) is modelled by an explicit outcome parameter,
and the surrounding control flow is translated faithfully.

Source files embedded:
  - `src/services/rag.service.js`   (`RAGService.retrieveContext`)
  - `src/services/llm.service.js`   (`LLMService.generateAIResponse`)
  - `src/services/conversation.service.js`
      (`ConversationService.processMessage`, `generateSummary`)
  - `src/workers/callWorker.js`     (`CallWorker.start`, `processCallQueue`,
      `triggerManually`)
  - `src/models/Lead.js`, `src/models/CallLog.js` (data model)
-/

namespace AdmissionCore

/-- Role of a transcript entry, per the `transcript.role` enum in
`src/models/Lead.js` (`user`, `assistant`, `system`). -/
inductive Role
  | user
  | assistant
  | system
deriving DecidableEq, Repr

/-- One transcript turn record `\x7brole, text, timestamp\x7d`.  The timestamp is
`Option Nat` because the in-memory history objects built inside
`processMessage` (`\x7brole: 'user', text: userMessage\x7d`) carry no timestamp,
while the persisted entries do. -/
structure TranscriptEntry where
  role : Role
  text : String
  timestamp : Option Nat
deriving DecidableEq, Repr

/-- Status enum of a Lead, per `src/models/Lead.js`
(`pending`, `calling`, `completed`, `failed`, `no_answer`). -/
inductive LeadStatus
  | pending
  | calling
  | completed
  | failed
  | no_answer
deriving DecidableEq, Repr

/-- A Lead document, per the schema in `src/models/Lead.js`.  `course_interest`
and `summary` default to the empty string in the schema, so they are plain
strings here. -/
structure Lead where
  id : Nat
  name : String
  phone : String
  email : String
  status : LeadStatus
  attempts : Nat
  interest_score : Int
  course_interest : String
  summary : String
  transcript : List TranscriptEntry
  createdAt : Nat
deriving DecidableEq, Repr

/-- A CallLog document, per `src/models/CallLog.js`. -/
structure CallLogRecord where
  leadId : Nat
  duration : Nat
  intents : List String
  objection_detected : String
  handoff_required : Bool
  raw_transcript : String
deriving DecidableEq, Repr

/-! ### JSON values and the structured-output validator -/

/-- A JavaScript value as far as the validator observes it: the validator in
`llm.service.js` only inspects `typeof` (string / number / boolean) and
truthiness, so composite values (arrays, objects) are collapsed into one
constructor.  JS numbers are modelled as `Int`. -/
inductive JsonVal
  | str (s : String)
  | num (n : Int)
  | boolean (b : Bool)
  | null
  | composite
deriving DecidableEq, Repr

/-- JavaScript truthiness of a value: empty string and 0 and `null` are
falsy, everything else here is truthy. -/
def JsonVal.truthy : JsonVal → Bool
  | .str s => !(s == "")
  | .num n => !(n == 0)
  | .boolean b => b
  | .null => false
  | .composite => true

/-- Truthiness of an object field: an absent field (`undefined`) is falsy. -/
def fieldTruthy : Option JsonVal → Bool
  | some v => v.truthy
  | none => false

/-- JS `typeof field === 'string'` (false when the field is absent). -/
def isStringField : Option JsonVal → Bool
  | some (.str _) => true
  | _ => false

/-- JS `typeof field === 'number'` (false when the field is absent). -/
def isNumberField : Option JsonVal → Bool
  | some (.num _) => true
  | _ => false

/-- JS `typeof field === 'boolean'` (false when the field is absent). -/
def isBoolField : Option JsonVal → Bool
  | some (.boolean _) => true
  | _ => false

/-- The object obtained from `JSON.parse(jsonMatch[0])`, restricted to the six
field names the validator reads.  `none` means the field is absent. -/
structure ParsedJson where
  response : Option JsonVal
  intent : Option JsonVal
  interest_score_delta : Option JsonVal
  course_detected : Option JsonVal
  objection_detected : Option JsonVal
  handoff_required : Option JsonVal
deriving DecidableEq, Repr

/-- The `isValid` check of `LLMService.generateAIResponse`
(`llm.service.js`), verbatim:
`parsed.response && typeof parsed.response === 'string' && parsed.intent &&`
`typeof parsed.intent === 'string' && typeof parsed.interest_score_delta ===`
`'number' && typeof parsed.course_detected === 'string' && typeof`
`parsed.objection_detected === 'string' && typeof parsed.handoff_required`
`=== 'boolean'`. -/
def isValidAIResult (p : ParsedJson) : Bool :=
  fieldTruthy p.response && isStringField p.response &&
  fieldTruthy p.intent && isStringField p.intent &&
  isNumberField p.interest_score_delta &&
  isStringField p.course_detected &&
  isStringField p.objection_detected &&
  isBoolField p.handoff_required

/-- The validated six-field structured record returned by the generation
step. -/
structure AIResult where
  response : String
  intent : String
  interest_score_delta : Int
  course_detected : String
  objection_detected : String
  handoff_required : Bool
deriving DecidableEq, Repr

/-- Read a string field out of a parsed object (defaulting arbitrarily; only
used after validation has succeeded, where the field is a string). -/
def getStringField : Option JsonVal → String
  | some (.str s) => s
  | _ => ""

/-- Read a number field out of a parsed object (only used after validation). -/
def getNumberField : Option JsonVal → Int
  | some (.num n) => n
  | _ => 0

/-- Read a boolean field out of a parsed object (only used after
validation). -/
def getBoolField : Option JsonVal → Bool
  | some (.boolean b) => b
  | _ => false

/-- The validated record, as the fields of the parsed JSON object. -/
def toAIResult (p : ParsedJson) : AIResult :=
  { response := getStringField p.response
    intent := getStringField p.intent
    interest_score_delta := getNumberField p.interest_score_delta
    course_detected := getStringField p.course_detected
    objection_detected := getStringField p.objection_detected
    handoff_required := getBoolField p.handoff_required }

/-! ### Sentinels and JS string inclusion -/

/-- JS `s.includes(pat)`: `pat` occurs as a contiguous substring of `s`. -/
def jsIncludes (s pat : String) : Bool :=
  (List.range (s.data.length + 1)).any fun i =>
    (s.data.drop i).take pat.data.length == pat.data

/-- The no-match sentinel returned by `RAGService.retrieveContext` when the
query matches no documents. -/
def noMatchSentinel : String := "No relevant information found in knowledge base."

/-- The retrieval-failure sentinel returned by `RAGService.retrieveContext`
when the query throws. -/
def retrievalFailSentinel : String := "Unable to retrieve context from knowledge base."

/-! ### Retrieval (`RAGService.retrieveContext`) -/

/-- Outcome of the ChromaDB `collection.query` call: either it throws
(`queryError`), or it returns a results object whose `documents` field is
absent/null (`success none`) or is an array of ranked document lists. -/
inductive QueryOutcome
  | queryError
  | success (documents : Option (List (List String)))
deriving DecidableEq, Repr

/-- The context-assembly step of `retrieveContext`:
`results.documents[0].map((doc, idx) => [Source idx+1]: doc).join(two newlines)`. -/
def formatContext (docs0 : List String) : String :=
  String.intercalate "\n\n"
    (docs0.enum.map fun p => "[Source " ++ toString (p.1 + 1) ++ "]: " ++ p.2)

/-- `RAGService.retrieveContext` (`rag.service.js`): on a thrown query error
return the retrieval-failure sentinel; if `results.documents` is absent or
has length 0 return the no-match sentinel; otherwise join the first ranked
list with source markers. -/
def retrieveContext : QueryOutcome → String
  | .queryError => retrievalFailSentinel
  | .success none => noMatchSentinel
  | .success (some docs) =>
    if docs.length == 0 then noMatchSentinel
    else formatContext (docs.headD [])

/-! ### Generation (`LLMService.generateAIResponse`) -/

/-- Behaviour of the generation collaborator plus the parse of its raw text:
`invokeError` models `model.invoke` throwing (network error / timeout);
`noJson` models the regex finding no structured-record substring in the raw
text; `parseError` models `JSON.parse` throwing; `parsed p` models a
successfully located and parsed object. -/
inductive GenOutcome
  | invokeError
  | noJson
  | parseError
  | parsed (p : ParsedJson)
deriving DecidableEq, Repr

/-- The fixed safe handoff record returned by the grounding gate, verbatim
from `llm.service.js`. -/
def handoffResult : AIResult :=
  { response := "I don\x27t have that information in the knowledge base. Let me connect you with a counselor who can help you better."
    intent := "handoff"
    interest_score_delta := 0
    course_detected := ""
    objection_detected := ""
    handoff_required := true }

/-- The fixed fallback record returned by the catch block of
`generateAIResponse`, verbatim from `llm.service.js`. -/
def fallbackResult : AIResult :=
  { response := "I\x27m here to help you with admissions. Could you please rephrase your question?"
    intent := "general"
    interest_score_delta := 0
    course_detected := ""
    objection_detected := ""
    handoff_required := false }

/-- Result of the generation step, together with whether the Generation
Collaborator (the LLM model) was actually invoked on this path. -/
structure GenResult where
  result : AIResult
  llmInvoked : Bool
deriving DecidableEq, Repr

/-- `LLMService.generateAIResponse` (`llm.service.js`).  The grounding gate
checks the two sentinel fragments with `retrievedContext.includes(...)` and
returns the handoff record without invoking the model; otherwise the model is
invoked and any failure in the invoke / JSON-extraction / parse / validation
chain falls into the catch block, which returns the fixed fallback record.
The function is total: no branch raises to the caller.  (The conversation
history argument only feeds the prompt sent to the collaborator, which is
abstracted by `GenOutcome`, so it is not a parameter here.) -/
def generateAIResponse (retrievedContext : String) (gen : GenOutcome) : GenResult :=
  if jsIncludes retrievedContext "No relevant information found" ||
     jsIncludes retrievedContext "Unable to retrieve context" then
    { result := handoffResult, llmInvoked := false }
  else
    match gen with
    | .invokeError => { result := fallbackResult, llmInvoked := true }
    | .noJson => { result := fallbackResult, llmInvoked := true }
    | .parseError => { result := fallbackResult, llmInvoked := true }
    | .parsed p =>
      if isValidAIResult p then { result := toAIResult p, llmInvoked := true }
      else { result := fallbackResult, llmInvoked := true }

/-! ### Conversation turn processing (`ConversationService.processMessage`) -/

/-- JS `s.substring(0, n)` (character-level). -/
def jsSubstring (s : String) (n : Nat) : String :=
  (s.data.take n).asString

/-- The role string stored in a transcript entry. -/
def roleText : Role → String
  | .user => "user"
  | .assistant => "assistant"
  | .system => "system"

/-- `ConversationService.generateSummary` (`conversation.service.js`):
join each recent entry as `role: text` with a bar separator and truncate to
500 characters. -/
def generateSummary (recentTranscript : List TranscriptEntry) : String :=
  jsSubstring
    (String.intercalate " | "
      (recentTranscript.map fun t => roleText t.role ++ ": " ++ t.text))
    500

/-- The update object prepared by `processMessage` for the single
`findByIdAndUpdate` call: the two entries to push onto the transcript, the
new interest score, and the optionally present `course_interest` and
`summary` fields (`none` = field absent from the update object). -/
structure UpdateData where
  pushTranscript : List TranscriptEntry
  interest_score : Int
  course_interest : Option String
  summary : Option String
deriving DecidableEq, Repr

/-- The update-object construction of `processMessage`
(`conversation.service.js`): build the two timestamped entries, clamp the new
score with `Math.max(0, Math.min(100, lead.interest_score + delta))`, set
`course_interest` when `aiResult.course_detected` is truthy (non-empty), and
set `summary` when `conversationHistory.length > 4`, where
`conversationHistory = [...lead.transcript, \x7brole:'user', text:userMessage\x7d]`,
from `[...conversationHistory.slice(-6), assistantMessageEntry]`. -/
def buildUpdateData (lead : Lead) (userMessage : String) (ai : AIResult)
    (userTs assistantTs : Nat) : UpdateData :=
  let conversationHistory := lead.transcript ++ [⟨.user, userMessage, none⟩]
  let userMessageEntry : TranscriptEntry := ⟨.user, userMessage, some userTs⟩
  let assistantMessageEntry : TranscriptEntry :=
    ⟨.assistant, ai.response, some assistantTs⟩
  let newInterestScore : Int :=
    max 0 (min 100 (lead.interest_score + ai.interest_score_delta))
  { pushTranscript := [userMessageEntry, assistantMessageEntry]
    interest_score := newInterestScore
    course_interest :=
      if ai.course_detected == "" then none else some ai.course_detected
    summary :=
      if conversationHistory.length > 4 then
        some (generateSummary
          (conversationHistory.drop (conversationHistory.length - 6) ++
            [assistantMessageEntry]))
      else none }

/-- The atomic `findByIdAndUpdate` write: `$push \x7btranscript: \x7b$each: [...]\x7d\x7d`
appends the pushed entries to whatever transcript the store currently holds,
and the `set` fields overwrite scalars; absent fields are left unchanged.
This is a single indivisible store operation. -/
def applyUpdate (u : UpdateData) (l : Lead) : Lead :=
  { l with
    transcript := l.transcript ++ u.pushTranscript
    interest_score := u.interest_score
    course_interest := u.course_interest.getD l.course_interest
    summary := u.summary.getD l.summary }

/-- The `lead` sub-object of the envelope returned by `processMessage`. -/
structure LeadView where
  id : Nat
  name : String
  interest_score : Int
  course_interest : String
  status : LeadStatus
deriving DecidableEq, Repr

/-- The `metadata` sub-object of the envelope returned by `processMessage`. -/
structure TurnMeta where
  intent : String
  handoff_required : Bool
  objection_detected : String
deriving DecidableEq, Repr

/-- The envelope returned by `processMessage`. -/
structure ProcessResult where
  response : String
  lead : LeadView
  metadata : TurnMeta
deriving DecidableEq, Repr

/-- Errors `processMessage` can propagate to its caller: the lead lookup
failing, the `findByIdAndUpdate` write failing, or the `CallLog.create`
write failing.  The catch block of `processMessage` logs and rethrows, so
every such error reaches the caller. -/
inductive ConvError
  | leadNotFound
  | persistenceFailure
  | callLogFailure
deriving DecidableEq, Repr

/-- The effectful environment of one conversation turn: the behaviour of the
retrieval query and of the generation collaborator, the two timestamps
`new Date()` produces for the user and assistant entries, and whether each of
the two store writes succeeds. -/
structure TurnEnv where
  queryOutcome : QueryOutcome
  genOutcome : GenOutcome
  userTimestamp : Nat
  assistantTimestamp : Nat
  updateSucceeds : Bool
  callLogSucceeds : Bool
deriving DecidableEq, Repr

/-- `ConversationService.processMessage` (`conversation.service.js`): look up
the lead (throwing NotFound when absent), retrieve context, run the
generation step, build the update object, apply it in one atomic store write
(propagating a write failure), create the CallLog record (propagating a
write failure), and return the response envelope together with the updated
lead and the created CallLog. -/
def processMessage (store : Option Lead) (userMessage : String) (env : TurnEnv) :
    Except ConvError (ProcessResult × Lead × CallLogRecord) :=
  match store with
  | none => .error .leadNotFound
  | some lead =>
    let retrievedContext := retrieveContext env.queryOutcome
    let gen := generateAIResponse retrievedContext env.genOutcome
    let aiResult := gen.result
    let updateData :=
      buildUpdateData lead userMessage aiResult env.userTimestamp env.assistantTimestamp
    if env.updateSucceeds then
      let updatedLead := applyUpdate updateData lead
      if env.callLogSucceeds then
        .ok
          ({ response := aiResult.response
             lead :=
               { id := updatedLead.id
                 name := updatedLead.name
                 interest_score := updatedLead.interest_score
                 course_interest := updatedLead.course_interest
                 status := updatedLead.status }
             metadata :=
               { intent := aiResult.intent
                 handoff_required := aiResult.handoff_required
                 objection_detected := aiResult.objection_detected } },
           updatedLead,
           { leadId := lead.id
             duration := 0
             intents := [aiResult.intent]
             objection_detected := aiResult.objection_detected
             handoff_required := aiResult.handoff_required
             raw_transcript :=
               "User: " ++ userMessage ++ "\nAI: " ++ aiResult.response })
      else .error .callLogFailure
    else .error .persistenceFailure

/-! ### Call queue worker (`callWorker.js`) -/

/-- Outcome produced by the Outcome Resolver stub `simulateCallOutcome`. -/
inductive CallOutcome
  | completed
  | no_answer
  | failed
deriving DecidableEq, Repr

/-- The first phase of the per-lead loop body in `processCallQueue`:
`lead.status = 'calling'; lead.attempts += 1; await lead.save()`. -/
def markCalling (lead : Lead) : Lead :=
  { lead with status := .calling, attempts := lead.attempts + 1 }

/-- The outcome-dispatch phase of the per-lead loop body: the
`if / else if` chain on the resolved outcome, with `none` modelling a
processing error caught by the per-lead catch block (which marks the lead
failed). -/
def applyOutcome (l1 : Lead) (outcome : Option CallOutcome) : Lead :=
  match outcome with
  | some .completed => { l1 with status := .completed }
  | some .no_answer =>
    if l1.attempts ≥ 3 then { l1 with status := .failed }
    else { l1 with status := .pending }
  | some .failed => { l1 with status := .failed }
  | none => { l1 with status := .failed }

/-- One lead's full trip through the per-lead loop body of
`CallWorker.processCallQueue`. -/
def processLead (lead : Lead) (outcome : Option CallOutcome) : Lead :=
  applyOutcome (markCalling lead) outcome

/-- The two ways a queue pass can be triggered: the cron schedule in
`CallWorker.start`, or the on-demand `CallWorker.triggerManually`. -/
inductive TriggerKind
  | periodic
  | manual
deriving DecidableEq, Repr

/-- Whether a trigger arriving while the reentrancy guard `this.isRunning`
has the given value executes `processCallQueue`.  The cron callback in
`CallWorker.start` returns early when `this.isRunning` is set;
`CallWorker.triggerManually` awaits `this.processCallQueue()` directly,
without reading the guard. -/
def triggerRunsPass : TriggerKind → Bool → Bool
  | .periodic, isRunning => !isRunning
  | .manual, _ => true

/-- The value of `this.isRunning` while a pass started by the given trigger
is executing: the cron callback sets it to `true` before the pass (and
resets it in `finally`); `triggerManually` never writes it, leaving whatever
value it had. -/
def guardDuringPass : TriggerKind → Bool → Bool
  | .periodic, _ => true
  | .manual, g => g

/-! ### Sample data used to instantiate the theorems -/

/-- A sample lead with an empty transcript. -/
def sampleLead : Lead :=
  { id := 1, name := "Asha", phone := "9991112222", email := "asha@example.com",
    status := .pending, attempts := 0, interest_score := 50,
    course_interest := "", summary := "", transcript := [], createdAt := 0 }

/-- A sample turn environment in which retrieval throws, generation yields no
JSON, and both store writes succeed. -/
def sampleEnv : TurnEnv :=
  { queryOutcome := .queryError, genOutcome := .noJson, userTimestamp := 1,
    assistantTimestamp := 2, updateSucceeds := true, callLogSucceeds := true }

/-- An arbitrary result triple, used only as the unreachable default of the
sample-run extractors below. -/
def fallbackTriple : ProcessResult × Lead × CallLogRecord :=
  (⟨"", ⟨0, "", 0, "", .pending⟩, ⟨"", false, ""⟩⟩, sampleLead,
   ⟨0, 0, [], "", false, ""⟩)

/-- The result of running one sample turn on `sampleLead`. -/
def sampleRun : ProcessResult × Lead × CallLogRecord :=
  match processMessage (some sampleLead) "hi" sampleEnv with
  | .ok r => r
  | .error _ => fallbackTriple

/-- A lead whose stored transcript has exactly 4 entries. -/
def fourTurnLead : Lead :=
  { sampleLead with transcript :=
      [⟨.user, "a", some 1⟩, ⟨.assistant, "b", some 2⟩,
       ⟨.user, "c", some 3⟩, ⟨.assistant, "d", some 4⟩] }

/-- The result of running one sample turn on `fourTurnLead`. -/
def fourTurnRun : ProcessResult × Lead × CallLogRecord :=
  match processMessage (some fourTurnLead) "q" sampleEnv with
  | .ok r => r
  | .error _ => fallbackTriple

/-- A turn environment whose store write fails. -/
def failEnv : TurnEnv := { sampleEnv with updateSucceeds := false }

/-! ### Shared lemmas -/

/-- A successful `processMessage` run stores exactly the lead produced by
applying the prepared update object to the loaded lead. -/
theorem processMessage_ok_parts (lead : Lead) (m : String) (env : TurnEnv)
    (r : ProcessResult × Lead × CallLogRecord)
    (h : processMessage (some lead) m env = .ok r) :
    r.2.1 = applyUpdate
      (buildUpdateData lead m
        (generateAIResponse (retrieveContext env.queryOutcome) env.genOutcome).result
        env.userTimestamp env.assistantTimestamp) lead := by
  unfold processMessage at h
  by_cases hu : env.updateSucceeds = true
  · by_cases hc : env.callLogSucceeds = true
    · simp only [hu, hc, if_true] at h
      injection h with h2
      rw [← h2]
    · simp [hu, hc] at h
  · simp [hu] at h

/-! ### Claim theorems -/

/-- C1: if the retrieved context string is the no-match sentinel or the
retrieval-failure sentinel, the generation step returns the fixed safe
handoff response with `handoff_required = true`, and the Generation
Collaborator (the LLM model) is never invoked.  The last two conjuncts tie
the sentinels to the retrieval layer that produces them. -/
theorem grounding_gate_short_circuits (ctx : String) (g : GenOutcome)
    (h : ctx = noMatchSentinel ∨ ctx = retrievalFailSentinel) :
    generateAIResponse ctx g = { result := handoffResult, llmInvoked := false } ∧
    (generateAIResponse ctx g).result.handoff_required = true ∧
    retrieveContext (.success none) = noMatchSentinel ∧
    retrieveContext .queryError = retrievalFailSentinel := by
  have hc : (jsIncludes ctx "No relevant information found" ||
             jsIncludes ctx "Unable to retrieve context") = true := by
    rcases h with h | h <;> subst h <;> decide
  have h1 : generateAIResponse ctx g = { result := handoffResult, llmInvoked := false } := by
    unfold generateAIResponse
    rw [hc]
    rfl
  exact ⟨h1, by rw [h1]; rfl, rfl, rfl⟩

/-- Witness for C1 at the concrete no-match sentinel. -/
theorem grounding_gate_short_circuits_witness :
    generateAIResponse noMatchSentinel .noJson =
      { result := handoffResult, llmInvoked := false } ∧
    (generateAIResponse noMatchSentinel .noJson).result.handoff_required = true ∧
    retrieveContext (.success none) = noMatchSentinel ∧
    retrieveContext .queryError = retrievalFailSentinel :=
  grounding_gate_short_circuits noMatchSentinel .noJson (Or.inl rfl)

/-- C3 counterexample: a manual trigger arriving while the reentrancy guard
is set (a pass is active) executes the queue pass — `triggerManually` never
consults the guard — refuting the claim that any trigger arriving during an
active pass is a no-op (which would require the value `false` here). -/
theorem manual_trigger_not_noop :
    triggerRunsPass .manual true = true := by decide

/-- C3 amended: both triggers invoke the same queue-pass routine, but only
the periodic trigger consults and sets the reentrancy guard — a periodic
trigger during a guard-held pass is a no-op, while a manual trigger always
starts a pass regardless of the guard and leaves the guard unchanged. -/
theorem trigger_guard_behaviour :
    (∀ g : Bool, triggerRunsPass .periodic g = !g) ∧
    (∀ g : Bool, triggerRunsPass .manual g = true) ∧
    (∀ g : Bool, guardDuringPass .periodic g = true) ∧
    (∀ g : Bool, guardDuringPass .manual g = g) :=
  ⟨fun _ => rfl, fun _ => rfl, fun _ => rfl, fun _ => rfl⟩

/-- C4: for every lead processed in a scheduler pass, the worker first sets
`status = calling` and increments `attempts` by exactly one, then applies the
outcome table: `completed` ends completed; `no_answer` ends failed when the
incremented attempts reach 3 and pending otherwise; `failed` and a
processing error end failed.  The `if` conjunct instantiates to the two
scenario rows: attempts 1 → 2 < 3 → pending, attempts 2 → 3 ≥ 3 → failed. -/
theorem callQueue_outcome_table (lead : Lead) :
    (markCalling lead).status = .calling ∧
    (markCalling lead).attempts = lead.attempts + 1 ∧
    (∀ o : Option CallOutcome, (processLead lead o).attempts = lead.attempts + 1) ∧
    (processLead lead (some .completed)).status = .completed ∧
    (processLead lead (some .no_answer)).status =
      (if lead.attempts + 1 ≥ 3 then LeadStatus.failed else LeadStatus.pending) ∧
    (processLead lead (some .failed)).status = .failed ∧
    (processLead lead none).status = .failed := by
  refine ⟨rfl, rfl, ?_, rfl, ?_, rfl, rfl⟩
  · intro o
    cases o with
    | none => rfl
    | some c =>
      cases c with
      | completed => rfl
      | no_answer =>
        simp only [processLead, markCalling, applyOutcome]
        split <;> rfl
      | failed => rfl
  · simp only [processLead, markCalling, applyOutcome]
    split <;> rfl

/-- C10: when the retrieval query succeeds with a non-empty `documents` array
whose first ranked list is empty, `retrieveContext` returns the empty string,
not the no-match sentinel, and the generation step on an empty context
invokes the Generation Collaborator instead of short-circuiting to the
handoff response. -/
theorem empty_first_ranked_list_empty_context
    (rest : List (List String)) (g : GenOutcome) :
    retrieveContext (.success (some ([] :: rest))) = "" ∧
    retrieveContext (.success (some ([] :: rest))) ≠ noMatchSentinel ∧
    retrieveContext (.success (some ([] :: rest))) ≠ retrievalFailSentinel ∧
    (generateAIResponse "" g).llmInvoked = true := by
  have hc : (jsIncludes "" "No relevant information found" ||
             jsIncludes "" "Unable to retrieve context") = false := by decide
  have h0 : retrieveContext (.success (some ([] :: rest))) = "" := rfl
  refine ⟨h0, by rw [h0]; decide, by rw [h0]; decide, ?_⟩
  unfold generateAIResponse
  rw [hc]
  simp only [Bool.false_eq_true, if_false]
  cases g with
  | invokeError => rfl
  | noJson => rfl
  | parseError => rfl
  | parsed p => split <;> first | rfl | (split <;> rfl)

/-- One of the six required fields is absent or has the wrong primitive
type. -/
def missingOrWrongTypeField (p : ParsedJson) : Bool :=
  !isStringField p.response || !isStringField p.intent ||
  !isNumberField p.interest_score_delta || !isStringField p.course_detected ||
  !isStringField p.objection_detected || !isBoolField p.handoff_required

/-- A parsed object failing the field checks fails validation. -/
theorem invalid_of_missingOrWrongType (p : ParsedJson)
    (hp : missingOrWrongTypeField p = true) :
    isValidAIResult p = false := by
  unfold missingOrWrongTypeField at hp
  unfold isValidAIResult
  cases hR : isStringField p.response <;>
  cases hI : isStringField p.intent <;>
  cases hN : isNumberField p.interest_score_delta <;>
  cases hC : isStringField p.course_detected <;>
  cases hO : isStringField p.objection_detected <;>
  cases hH : isBoolField p.handoff_required <;>
    simp [hR, hI, hN, hC, hO, hH] at hp ⊢

/-- On a non-sentinel context, a parsed object failing validation yields the
whole fixed fallback record. -/
theorem generateAIResponse_parsed_invalid (ctx : String) (p : ParsedJson)
    (hc : (jsIncludes ctx "No relevant information found" ||
           jsIncludes ctx "Unable to retrieve context") = false)
    (hv : isValidAIResult p = false) :
    generateAIResponse ctx (.parsed p) =
      { result := fallbackResult, llmInvoked := true } := by
  unfold generateAIResponse
  rw [hc]
  simp only [Bool.false_eq_true, if_false]
  rw [hv]
  simp only [Bool.false_eq_true, if_false]

/-- C6: for any raw generation output in which one of the six required fields
is absent or has the wrong primitive type, or in which no structured-record
substring can be located (`noJson`), or whose located substring fails to
parse, or whose model invocation throws, the generation step returns the
fixed fallback record in its entirety — never a partially populated record.
The embedding is a total function, so no branch raises to the caller. -/
theorem invalid_output_yields_full_fallback (ctx : String) (p : ParsedJson)
    (h1 : jsIncludes ctx "No relevant information found" = false)
    (h2 : jsIncludes ctx "Unable to retrieve context" = false)
    (hp : missingOrWrongTypeField p = true) :
    generateAIResponse ctx (.parsed p) =
      { result := fallbackResult, llmInvoked := true } ∧
    generateAIResponse ctx .noJson =
      { result := fallbackResult, llmInvoked := true } ∧
    generateAIResponse ctx .parseError =
      { result := fallbackResult, llmInvoked := true } ∧
    generateAIResponse ctx .invokeError =
      { result := fallbackResult, llmInvoked := true } := by
  have hc : (jsIncludes ctx "No relevant information found" ||
             jsIncludes ctx "Unable to retrieve context") = false := by
    rw [h1, h2]; rfl
  refine ⟨generateAIResponse_parsed_invalid ctx p hc
    (invalid_of_missingOrWrongType p hp), ?_, ?_, ?_⟩ <;>
    · unfold generateAIResponse
      rw [hc]
      simp only [Bool.false_eq_true, if_false]

/-- A parsed object with the `objection_detected` field absent, used to
instantiate C6. -/
def missingObjectionParsed : ParsedJson :=
  { response := some (.str "Our CSE program covers AI.")
    intent := some (.str "course_inquiry")
    interest_score_delta := some (.num 1)
    course_detected := some (.str "CSE")
    objection_detected := none
    handoff_required := some (.boolean false) }

/-- Witness for C6: a record missing `objection_detected` on a plain context
is replaced by the whole fallback record. -/
theorem invalid_output_yields_full_fallback_witness :
    missingOrWrongTypeField missingObjectionParsed = true ∧
    generateAIResponse "Some context about courses."
        (.parsed missingObjectionParsed) =
      { result := fallbackResult, llmInvoked := true } :=
  ⟨by decide,
   (invalid_output_yields_full_fallback "Some context about courses."
      missingObjectionParsed (by decide) (by decide) (by decide)).1⟩

/-- A parsed object in which all six fields are present with the correct
primitive types but the score delta is 100, far outside [-3,3]. -/
def bigDeltaParsed : ParsedJson :=
  { response := some (.str "Great, our fees are affordable.")
    intent := some (.str "pricing")
    interest_score_delta := some (.num 100)
    course_detected := some (.str "")
    objection_detected := some (.str "")
    handoff_required := some (.boolean false) }

/-- C8 counterexample: the validator accepts a record whose
`interest_score_delta` is 100, so an accepted record need not lie in
[-3,3] — the range appears only in the prompt instructions and is never
checked. -/
theorem validator_accepts_out_of_range_delta :
    isValidAIResult bigDeltaParsed = true ∧
    generateAIResponse "Tuition details here." (.parsed bigDeltaParsed) =
      { result := toAIResult bigDeltaParsed, llmInvoked := true } ∧
    (toAIResult bigDeltaParsed).interest_score_delta = 100 ∧
    ¬(-3 ≤ (toAIResult bigDeltaParsed).interest_score_delta ∧
      (toAIResult bigDeltaParsed).interest_score_delta ≤ 3) := by
  refine ⟨by decide, ?_, by decide, by decide⟩
  unfold generateAIResponse
  rw [show (jsIncludes "Tuition details here." "No relevant information found" ||
       jsIncludes "Tuition details here." "Unable to retrieve context") = false
     from by decide]
  simp only [Bool.false_eq_true, if_false]
  rw [show isValidAIResult bigDeltaParsed = true from by decide]
  simp

/-- C8 amended: every structured record accepted by the validator has an
`interest_score_delta` field that is a JSON number; the validator enforces
only this primitive type, not integrality and not the [-3,3] range. -/
theorem validator_delta_is_number (p : ParsedJson)
    (h : isValidAIResult p = true) :
    isNumberField p.interest_score_delta = true := by
  simp only [isValidAIResult, Bool.and_eq_true] at h
  tauto

/-- Witness for the amended C8 at a concrete accepted record. -/
theorem validator_delta_is_number_witness :
    isValidAIResult bigDeltaParsed = true ∧
    isNumberField bigDeltaParsed.interest_score_delta = true :=
  ⟨by decide, validator_delta_is_number bigDeltaParsed (by decide)⟩

/-- C2: every successful conversation turn persists its transcript change as
one atomic update appending exactly two entries — the user turn, then the
assistant turn, each with its own timestamp — leaving every existing entry in
place; consequently two concurrent turns on the same lead (each reading a
possibly stale snapshot, with the atomic appends serialised by the store in
either order) leave the transcript longer by exactly four entries, with all
four present and none overwritten. -/
theorem turn_transcript_atomic_append (lead : Lead) (m : String) (env : TurnEnv)
    (r : ProcessResult × Lead × CallLogRecord)
    (h : processMessage (some lead) m env = .ok r) :
    (r.2.1.transcript =
      lead.transcript ++
        [⟨.user, m, some env.userTimestamp⟩,
         ⟨.assistant,
          (generateAIResponse (retrieveContext env.queryOutcome)
            env.genOutcome).result.response,
          some env.assistantTimestamp⟩] ∧
     r.2.1.transcript.length = lead.transcript.length + 2) ∧
    (∀ (s readA readB : Lead) (mA mB : String) (aiA aiB : AIResult)
        (t1 t2 t3 t4 : Nat),
      (applyUpdate (buildUpdateData readB mB aiB t3 t4)
          (applyUpdate (buildUpdateData readA mA aiA t1 t2) s)).transcript =
        s.transcript ++
          [⟨.user, mA, some t1⟩, ⟨.assistant, aiA.response, some t2⟩,
           ⟨.user, mB, some t3⟩, ⟨.assistant, aiB.response, some t4⟩] ∧
      (applyUpdate (buildUpdateData readB mB aiB t3 t4)
          (applyUpdate (buildUpdateData readA mA aiA t1 t2) s)).transcript.length =
        s.transcript.length + 4) := by
  have hr := processMessage_ok_parts lead m env r h
  constructor
  · rw [hr]
    refine ⟨?_, ?_⟩
    · simp [applyUpdate, buildUpdateData]
    · simp [applyUpdate, buildUpdateData]
  · intro s readA readB mA mB aiA aiB t1 t2 t3 t4
    refine ⟨?_, ?_⟩
    · simp [applyUpdate, buildUpdateData]
    · simp [applyUpdate, buildUpdateData]

/-- Witness for C2 on a concrete successful turn. -/
theorem turn_transcript_atomic_append_witness :
    processMessage (some sampleLead) "hi" sampleEnv = .ok sampleRun ∧
    sampleRun.2.1.transcript.length = sampleLead.transcript.length + 2 :=
  ⟨rfl,
   (turn_transcript_atomic_append sampleLead "hi" sampleEnv sampleRun rfl).1.2⟩

/-- C5: after every successful conversation-turn update, the stored
`interest_score` equals `clamp(current_score + delta, 0, 100)` — written as
`max 0 (min 100 _)`, exactly the `Math.max(0, Math.min(100, _))` of the
source — and therefore lies in [0,100] whatever delta the generation step
produced; since this holds for an arbitrary starting score, it holds after
every update of any sequence of deltas. -/
theorem interest_score_clamped (lead : Lead) (m : String) (env : TurnEnv)
    (r : ProcessResult × Lead × CallLogRecord)
    (h : processMessage (some lead) m env = .ok r) :
    r.2.1.interest_score =
      max 0 (min 100 (lead.interest_score +
        (generateAIResponse (retrieveContext env.queryOutcome)
          env.genOutcome).result.interest_score_delta)) ∧
    0 ≤ r.2.1.interest_score ∧ r.2.1.interest_score ≤ 100 := by
  have hr := processMessage_ok_parts lead m env r h
  have hs : r.2.1.interest_score =
      max 0 (min 100 (lead.interest_score +
        (generateAIResponse (retrieveContext env.queryOutcome)
          env.genOutcome).result.interest_score_delta)) := by
    rw [hr]
    rfl
  refine ⟨hs, ?_, ?_⟩
  · rw [hs]; exact le_max_left _ _
  · rw [hs]; exact max_le (by norm_num) (min_le_left _ _)

/-- Witness for C5 on a concrete successful turn. -/
theorem interest_score_clamped_witness :
    sampleRun.2.1.interest_score = 50 ∧
    0 ≤ sampleRun.2.1.interest_score ∧ sampleRun.2.1.interest_score ≤ 100 := by
  have h := interest_score_clamped sampleLead "hi" sampleEnv sampleRun rfl
  exact ⟨by rw [h.1]; decide, h.2.1, h.2.2⟩

/-- C7: a store-write failure during a conversation turn is never swallowed —
`processMessage` propagates it to its caller as an error, never substituting
a fallback success — while a retrieval-collaborator failure never aborts the
turn: it degrades to the failure sentinel inside `retrieveContext`, and a
turn whose retrieval failed still completes successfully when the writes
succeed. -/
theorem persistence_failure_propagates (lead : Lead) (m : String) (env : TurnEnv) :
    (env.updateSucceeds = false →
      processMessage (some lead) m env = .error .persistenceFailure) ∧
    retrieveContext .queryError = retrievalFailSentinel ∧
    (env.queryOutcome = .queryError → env.updateSucceeds = true →
      env.callLogSucceeds = true →
      ∃ r, processMessage (some lead) m env = .ok r) := by
  refine ⟨?_, rfl, ?_⟩
  · intro hu
    unfold processMessage
    simp [hu]
  · intro _ hu hc
    unfold processMessage
    simp [hu, hc]

/-- Witness for C7: a failed write on a concrete turn surfaces as the
persistence error, and the same turn with retrieval failing but writes
succeeding completes. -/
theorem persistence_failure_propagates_witness :
    processMessage (some sampleLead) "hi" failEnv = .error .persistenceFailure ∧
    (∃ r, processMessage (some sampleLead) "hi" sampleEnv = .ok r) :=
  ⟨(persistence_failure_propagates sampleLead "hi" failEnv).1 rfl,
   (persistence_failure_propagates sampleLead "hi" sampleEnv).2.2 rfl rfl rfl⟩

/-- C9 counterexample: on a lead whose stored (pre-turn) transcript has
exactly 4 entries — which does not exceed 4 — a successful turn still
recomputes and sets the summary, because the source tests
`conversationHistory.length > 4` on the history that already includes the
new user turn. -/
theorem summary_set_at_four_entries :
    fourTurnLead.transcript.length = 4 ∧
    ¬(fourTurnLead.transcript.length > 4) ∧
    processMessage (some fourTurnLead) "q" sampleEnv = .ok fourTurnRun ∧
    fourTurnRun.2.1.summary ≠ fourTurnLead.summary := by
  refine ⟨rfl, by decide, rfl, by decide⟩

/-- C9 amended: during persistence of a successful conversation turn, the
summary is recomputed and set if and only if the conversation history
including the new user turn exceeds 4 entries — equivalently, iff the
pre-turn transcript had at least 4 entries; when set it is derived from the
most recent entries (the last 6 history entries plus the new assistant turn)
and is bounded to at most 500 characters. -/
theorem summary_set_iff_history_exceeds_four (lead : Lead) (m : String)
    (env : TurnEnv) (r : ProcessResult × Lead × CallLogRecord)
    (h : processMessage (some lead) m env = .ok r) :
    (lead.transcript.length + 1 > 4 →
      r.2.1.summary =
        generateSummary
          ((lead.transcript ++ [(⟨.user, m, none⟩ : TranscriptEntry)]).drop
              (lead.transcript.length + 1 - 6) ++
            [(⟨.assistant,
              (generateAIResponse (retrieveContext env.queryOutcome)
                env.genOutcome).result.response,
              some env.assistantTimestamp⟩ : TranscriptEntry)])) ∧
    (¬(lead.transcript.length + 1 > 4) → r.2.1.summary = lead.summary) ∧
    (∀ recent : List TranscriptEntry, (generateSummary recent).length ≤ 500) := by
  have hr := processMessage_ok_parts lead m env r h
  have hlen : (lead.transcript ++ [(⟨.user, m, none⟩ : TranscriptEntry)]).length =
      lead.transcript.length + 1 := by simp
  refine ⟨?_, ?_, ?_⟩
  · intro hgt
    rw [hr]
    simp only [applyUpdate, buildUpdateData]
    rw [if_pos (by rw [hlen]; exact hgt), hlen]
    rfl
  · intro hle
    rw [hr]
    simp only [applyUpdate, buildUpdateData]
    rw [if_neg (by rw [hlen]; exact hle)]
    rfl
  · intro recent
    unfold generateSummary jsSubstring
    have ha : ∀ l : List Char, (List.asString l).length = l.length := fun _ => rfl
    rw [ha]
    exact le_trans (le_of_eq (List.length_take _ _)) (min_le_left _ _)

/-- Witness for the amended C9 on a concrete turn whose pre-turn transcript
has 4 entries (history of 5 exceeds 4), so the summary is set. -/
theorem summary_set_iff_history_exceeds_four_witness :
    fourTurnRun.2.1.summary =
      generateSummary
        ((fourTurnLead.transcript ++ [(⟨.user, "q", none⟩ : TranscriptEntry)]).drop
            (fourTurnLead.transcript.length + 1 - 6) ++
          [(⟨.assistant,
            (generateAIResponse (retrieveContext sampleEnv.queryOutcome)
              sampleEnv.genOutcome).result.response,
            some sampleEnv.assistantTimestamp⟩ : TranscriptEntry)]) :=
  (summary_set_iff_history_exceeds_four fourTurnLead "q" sampleEnv fourTurnRun
    rfl).1 (by decide)

end AdmissionCore
